import Mathlib

/-!
Verification of the log-analysis pipeline of `backend/llm_pipeline.py`
(together with `backend/prompts.py` and the `insert_log` gateway of
`backend/db.py`), as a shallow embedding in Lean 4.

Modelling conventions:
* Python strings are `List Char` (the pipeline manipulates them
  character-wise: `find`, `rfind`, slicing, `strip`).
* JSON values (what `json.loads` produces) are the inductive `JVal`;
  Python dicts are association lists with unique keys.
* `json.loads` is an external library call; the pipeline is parameterised
  over it (`parse : List Char → Option JVal`).  Likewise `json.dumps`
  (used on the way to the database) is a parameter `dumps`.
* Exceptions are `Except Unit`; a caught exception is a `.error` value
  consumed by the handler that the source installs.
* The model backend (`llm.invoke`) is a parameter giving, per attempt
  index, either an exception or a response object.
-/

namespace LogAnalyzer

/-- The brace and backtick characters, written via their code points so
they never occur bare in delimiter position. -/
def lbrace : Char := Char.ofNat 123

def rbrace : Char := Char.ofNat 125

def btick : Char := Char.ofNat 96

/-- A JSON value, as produced by `json.loads`: `null`, booleans, (integer)
numbers, strings, arrays and objects.  Objects are association lists;
`json.loads` yields objects with unique string keys. -/
inductive JVal where
  | null : JVal
  | bool (b : Bool) : JVal
  | num (n : Int) : JVal
  | str (s : String) : JVal
  | arr (xs : List JVal) : JVal
  | obj (fields : List (String × JVal)) : JVal

/-- Python `d.get(k, default)` on a dict: first (= only) binding of `k`,
else the default. -/
def dictGetD : List (String × JVal) → String → JVal → JVal
  | [], _, d => d
  | (k', v) :: rest, k, d => if k' = k then v else dictGetD rest k d

/-- Lookup of a key in a JSON object (`none` when the value is not an
object or the key is absent). -/
def jLookup (v : JVal) (k : String) : Option JVal :=
  match v with
  | JVal.obj fields => (fields.find? (fun p => p.1 = k)).map Prod.snd
  | _ => none

/-- Whether a JSON value is an object (a Python `dict`). -/
def JVal.isObj : JVal → Bool
  | JVal.obj _ => true
  | _ => false

/-- Python iteration over a value (`for x in v`): lists iterate their
elements, strings their characters (as 1-character strings), dicts their
keys; `None`, booleans and numbers are not iterable (`TypeError`). -/
def iterJVal : JVal → Except Unit (List JVal)
  | JVal.arr xs => Except.ok xs
  | JVal.str s => Except.ok (s.toList.map (fun c => JVal.str (String.mk [c])))
  | JVal.obj fields => Except.ok (fields.map (fun p => JVal.str p.1))
  | _ => Except.error ()

/-! ## Python string helpers used by `extract_json_from_text` -/

/-- Python `str.strip()`: drop leading and trailing whitespace. -/
def pyStrip (s : List Char) : List Char :=
  ((s.dropWhile Char.isWhitespace).reverse.dropWhile Char.isWhitespace).reverse

/-- Python `str.split(sep)` for a one-character separator.
`splitOnChar c "" = [""]`, matching Python. -/
def splitOnChar (c : Char) : List Char → List (List Char)
  | [] => [[]]
  | x :: xs =>
    let r := splitOnChar c xs
    if x = c then [] :: r
    else
      match r with
      | [] => [[x]]
      | y :: ys => (x :: y) :: ys

/-- Python `str.find(c)` for a single character: index of the first
occurrence (`None` models `-1`). -/
def pyFindAux (c : Char) : List Char → Option Nat
  | [] => none
  | x :: xs => if x = c then some 0 else (pyFindAux c xs).map (· + 1)

def pyFind (s : List Char) (c : Char) : Option Nat := pyFindAux c s

/-- Python `str.rfind(c)`: index of the last occurrence. -/
def pyRFind (s : List Char) (c : Char) : Option Nat :=
  (pyFindAux c s.reverse).map (fun i => s.length - 1 - i)

/-- The `"```"` fence marker tested by `startswith`. -/
def fenceChars : List Char := [btick, btick, btick]

/-! ## Response Extractor: `extract_json_from_text` (llm_pipeline.py lines 59–117) -/

/-- The fenced-code-block stripping step: split into lines, drop a first
line that (stripped) starts with the fence, drop a last line that
(stripped) is exactly the fence, re-join, strip. -/
def stripFences (t : List Char) : List Char :=
  let lines := splitOnChar '\n' t
  let lines1 :=
    match lines with
    | [] => []
    | l0 :: rest => if fenceChars.isPrefixOf (pyStrip l0) then rest else l0 :: rest
  let lines2 :=
    match lines1.getLast? with
    | some lst => if pyStrip lst = fenceChars then lines1.dropLast else lines1
    | none => lines1
  pyStrip (List.intercalate ['\n'] lines2)

/-- Stages 1–3 of `extract_json_from_text`: empty check, strip, fence
removal, brace location, slicing.  Returns the substring handed to
`json.loads`, or `none` on the paths that fall through to the default
(`start_idx == -1 or end_idx <= start_idx`). -/
def jsonCandidate (text : List Char) : Option (List Char) :=
  if text = [] then none
  else
    let t1 := pyStrip text
    let t2 := if fenceChars.isPrefixOf t1 then stripFences t1 else t1
    match pyFind t2 lbrace, pyRFind t2 rbrace with
    | some start, some j =>
      if j + 1 ≤ start then none
      else some ((t2.drop start).take (j + 1 - start))
    | _, _ => none

/-- The normalized result of extraction: a dict with exactly the keys
`errors` and `possible_solutions` (their values are arbitrary JSON,
passed through uninterpreted). -/
structure JsonOut where
  errors : JVal
  possible_solutions : JVal

/-- The default `{"errors": [], "possible_solutions": []}`. -/
def defaultJsonOut : JsonOut := ⟨JVal.arr [], JVal.arr []⟩

/-- `extract_json_from_text`, parameterised over `json.loads`.  Any
failure (no braces, parse error, parsed value not a dict) yields the
default; on success the two keys are read with `.get(k, [])`. -/
def extract_json_from_text (parse : List Char → Option JVal) (text : List Char) : JsonOut :=
  match jsonCandidate text with
  | none => defaultJsonOut
  | some s =>
    match parse s with
    | some (JVal.obj fields) =>
      ⟨dictGetD fields "errors" (JVal.arr []),
       dictGetD fields "possible_solutions" (JVal.arr [])⟩
    | _ => defaultJsonOut

/-! ## Schema layer (pydantic models, llm_pipeline.py lines 18–36) -/

/-- `class Error(BaseModel)`: `timestamp: Optional[str] = None`,
`error_message: str`, `error_type: str`. -/
structure Error where
  timestamp : Option String
  error_message : String
  error_type : String
deriving DecidableEq

/-- `class FixSection(BaseModel)`: `summary: str`, `steps: List[str]`. -/
structure FixSection where
  summary : String
  steps : List String
deriving DecidableEq

/-- `class PossibleSolution(BaseModel)`: an `error_message` and three
`FixSection`s. -/
structure PossibleSolution where
  error_message : String
  immediate_fix : FixSection
  permanent_fix : FixSection
  preventive_measures : FixSection
deriving DecidableEq

/-- `class LogAnalysisResponse(BaseModel)`: `log_id: Optional[int] = None`
plus the two record lists (default empty). -/
structure LogAnalysisResponse where
  log_id : Option Int
  errors : List Error
  possible_solutions : List PossibleSolution
deriving DecidableEq

/-- `LogAnalysisResponse()` with all defaults. -/
def emptyResponse : LogAnalysisResponse := ⟨none, [], []⟩

/-! ## Validator/Repairer (run_log_analysis lines 234–272)

pydantic v2 field validation: a `str` field accepts exactly a JSON
string; an `Optional[str]` field accepts a string, `null`, or the key
being absent; a `List[str]` field accepts exactly an array of strings.
Extra keys are ignored. -/

/-- Validate an `Optional[str] = None` field from an optional JSON value. -/
def asOptStr : Option JVal → Option (Option String)
  | none => some none
  | some JVal.null => some none
  | some (JVal.str s) => some (some s)
  | some _ => none

/-- Validate a required `str` field from an optional JSON value. -/
def asReqStr : Option JVal → Option String
  | some (JVal.str s) => some s
  | _ => none

/-- Validate a required `List[str]` field from an optional JSON value. -/
def asStrList : Option JVal → Option (List String)
  | some (JVal.arr xs) =>
    xs.mapM (fun v => match v with | JVal.str s => some s | _ => none)
  | _ => none

/-- `Error(**fields)`: `none` models a pydantic `ValidationError`. -/
def mkError (fields : List (String × JVal)) : Option Error :=
  match asOptStr ((fields.find? (fun p => p.1 = "timestamp")).map Prod.snd),
        asReqStr ((fields.find? (fun p => p.1 = "error_message")).map Prod.snd),
        asReqStr ((fields.find? (fun p => p.1 = "error_type")).map Prod.snd) with
  | some ts, some msg, some ty => some ⟨ts, msg, ty⟩
  | _, _, _ => none

/-- Whether a dict contains a key (Python `k in d`). -/
def hasKey (fields : List (String × JVal)) (k : String) : Bool :=
  fields.any (fun p => p.1 = k)

/-- The repair step of the error loop: missing fields are filled with the
placeholders `None` (timestamp), `"Unknown error"` (error_message),
`"UnknownError"` (error_type); Python dict assignment appends new keys in
the order the source checks them. -/
def fillDefaults (fields : List (String × JVal)) : List (String × JVal) :=
  fields
    ++ (if hasKey fields "timestamp" then [] else [("timestamp", JVal.null)])
    ++ (if hasKey fields "error_message" then [] else [("error_message", JVal.str "Unknown error")])
    ++ (if hasKey fields "error_type" then [] else [("error_type", JVal.str "UnknownError")])

/-- One iteration of the error-validation loop: non-dict items are
skipped; a dict is validated, and on `ValidationError` repaired once and
revalidated; a second failure drops the record. -/
def validateErrorItem (v : JVal) : Option Error :=
  match v with
  | JVal.obj fields =>
    match mkError fields with
    | some e => some e
    | none => mkError (fillDefaults fields)
  | _ => none

/-- The whole error loop: survivors in input order, failures dropped. -/
def validateErrorBatch (items : List JVal) : List Error :=
  items.filterMap validateErrorItem

/-- `FixSection` validation of one JSON value (must be a dict with a
`summary` string and a `steps` list of strings). -/
def mkFixSection (v : JVal) : Option FixSection :=
  match v with
  | JVal.obj fields =>
    match asReqStr ((fields.find? (fun p => p.1 = "summary")).map Prod.snd),
          asStrList ((fields.find? (fun p => p.1 = "steps")).map Prod.snd) with
    | some su, some st => some ⟨su, st⟩
    | _, _ => none
  | _ => none

/-- `PossibleSolution(**fields)`. -/
def mkSolution (fields : List (String × JVal)) : Option PossibleSolution :=
  match asReqStr ((fields.find? (fun p => p.1 = "error_message")).map Prod.snd),
        ((fields.find? (fun p => p.1 = "immediate_fix")).map Prod.snd).bind mkFixSection,
        ((fields.find? (fun p => p.1 = "permanent_fix")).map Prod.snd).bind mkFixSection,
        ((fields.find? (fun p => p.1 = "preventive_measures")).map Prod.snd).bind mkFixSection with
  | some msg, some imm, some perm, some prev => some ⟨msg, imm, perm, prev⟩
  | _, _, _, _ => none

/-- One iteration of the solution-validation loop: non-dict items are
skipped; a failing dict is dropped with no repair attempt. -/
def validateSolutionItem (v : JVal) : Option PossibleSolution :=
  match v with
  | JVal.obj fields => mkSolution fields
  | _ => none

/-- The whole solution loop. -/
def validateSolutionBatch (items : List JVal) : List PossibleSolution :=
  items.filterMap validateSolutionItem

/-! ## Model Invoker: `analyze_log_node` (llm_pipeline.py lines 121–218) -/

/-- `MAX_LOG_LENGTH = 50000`. -/
def MAX_LOG_LENGTH : Nat := 50000

/-- `MAX_RETRIES = 3`. -/
def MAX_RETRIES : Nat := 3

/-- `RETRY_DELAY = 5`. -/
def RETRY_DELAY : Nat := 5

/-- The truncation marker `"\n... [truncated]"`. -/
def truncMarker : List Char := "\n... [truncated]".toList

/-- Lines 126–128: `log_text = log_text[:MAX_LOG_LENGTH] + "\n... [truncated]"`
when the input exceeds the limit. -/
def truncateLog (s : List Char) : List Char :=
  if s.length > MAX_LOG_LENGTH then s.take MAX_LOG_LENGTH ++ truncMarker else s

/-- What `response.content` may be at runtime (the source inspects it
dynamically): a string, a dict, or something else. -/
inductive ContentVal where
  | cstr (s : String)
  | cdict (fields : List (String × JVal))
  | cother

/-- The object returned by `llm.invoke`: something with a `.content`
attribute, a bare string, a bare dict, or anything else. -/
inductive PyResp where
  | withContent (c : ContentVal)
  | asStr (s : String)
  | asDict (fields : List (String × JVal))
  | otherResp

/-- One backend attempt either raises or returns a response object. -/
inductive LLMResult where
  | raise
  | ok (r : PyResp)

/-- Observable side effects of the invoker: one `llm.invoke` call (with
its attempt index), or one `time.sleep` (with its duration in seconds). -/
inductive Event where
  | invoke (attempt : Nat)
  | sleep (seconds : Nat)
deriving DecidableEq

/-- Whether an event is a backend call. -/
def Event.isInvoke : Event → Bool
  | Event.invoke _ => true
  | _ => false

/-- Number of backend calls in a trace. -/
def countInvokes (tr : List Event) : Nat := tr.countP Event.isInvoke

/-- The `for attempt in range(MAX_RETRIES)` loop.  Each iteration first
formats the prompt (`fres`, constant across iterations) and then calls
the backend; any exception in the body is caught, and
`time.sleep(RETRY_DELAY)` runs when `attempt < MAX_RETRIES - 1`.  A
successful call breaks with the response.  `fuel` is the number of
remaining iterations (`MAX_RETRIES - attempt`). -/
def goAttempts (fres : Except Unit (List Char)) (backend : Nat → List Char → LLMResult) :
    Nat → Nat → Option PyResp × List Event
  | _, 0 => (none, [])
  | attempt, fuel + 1 =>
    match fres with
    | Except.error _ =>
      if attempt < MAX_RETRIES - 1 then
        let r := goAttempts fres backend (attempt + 1) fuel
        (r.1, Event.sleep RETRY_DELAY :: r.2)
      else (none, [])
    | Except.ok prompt =>
      match backend attempt prompt with
      | LLMResult.ok r => (some r, [Event.invoke attempt])
      | LLMResult.raise =>
        if attempt < MAX_RETRIES - 1 then
          let r := goAttempts fres backend (attempt + 1) fuel
          (r.1, Event.invoke attempt :: Event.sleep RETRY_DELAY :: r.2)
        else (none, [Event.invoke attempt])

/-- Python truthiness of a response object (`if not response`): empty
strings and empty dicts are falsy; message objects are truthy. -/
def pyTruthy : PyResp → Bool
  | PyResp.asStr s => !(s == "")
  | PyResp.asDict fields => !fields.isEmpty
  | _ => true

/-- Normalisation of a dict response/content:
`{"errors": d.get("errors", []), "possible_solutions": d.get("possible_solutions", [])}`. -/
def dictToJsonOut (fields : List (String × JVal)) : JsonOut :=
  ⟨dictGetD fields "errors" (JVal.arr []),
   dictGetD fields "possible_solutions" (JVal.arr [])⟩

/-- Lines 178–218: turn the (optional) response object into the
`json_output` dict.  `None` or a falsy response gives the default; a
`.content` string goes through the extractor; dict shapes are normalised
directly; anything else gives the default. -/
def processResponse (parse : List Char → Option JVal) : Option PyResp → JsonOut
  | none => defaultJsonOut
  | some r =>
    if pyTruthy r then
      match r with
      | PyResp.withContent (ContentVal.cstr s) => extract_json_from_text parse s.toList
      | PyResp.withContent (ContentVal.cdict fields) => dictToJsonOut fields
      | PyResp.withContent ContentVal.cother => defaultJsonOut
      | PyResp.asStr s => extract_json_from_text parse s.toList
      | PyResp.asDict fields => dictToJsonOut fields
      | PyResp.otherResp => defaultJsonOut
    else defaultJsonOut

/-- `analyze_log_node`, parameterised over `json.loads` (`parse`), the
prompt formatter (`fmt`, modelling `log_analysis_prompt.format` which may
raise, see `promptFormat`) and the backend.  Returns the `json_output`
dict together with the trace of backend calls and sleeps. -/
def analyze_log_node (parse : List Char → Option JVal)
    (fmt : List Char → Except Unit (List Char))
    (backend : Nat → List Char → LLMResult)
    (log_text : List Char) : JsonOut × List Event :=
  let lt := truncateLog log_text
  let r := goAttempts (fmt lt) backend 0 MAX_RETRIES
  (processResponse parse r.1, r.2)

/-! ## Orchestrator: `run_log_analysis` (llm_pipeline.py lines 221–296) -/

/-- `Error.model_dump()`: field order as declared. -/
def dumpError (e : Error) : JVal :=
  JVal.obj [("timestamp", match e.timestamp with | none => JVal.null | some s => JVal.str s),
            ("error_message", JVal.str e.error_message),
            ("error_type", JVal.str e.error_type)]

/-- `FixSection.model_dump()`. -/
def dumpFixSection (f : FixSection) : JVal :=
  JVal.obj [("summary", JVal.str f.summary),
            ("steps", JVal.arr (f.steps.map JVal.str))]

/-- `PossibleSolution.model_dump()`. -/
def dumpSolution (s : PossibleSolution) : JVal :=
  JVal.obj [("error_message", JVal.str s.error_message),
            ("immediate_fix", dumpFixSection s.immediate_fix),
            ("permanent_fix", dumpFixSection s.permanent_fix),
            ("preventive_measures", dumpFixSection s.preventive_measures)]

/-- `LogAnalysisResponse.model_dump()`: a plain dict with `log_id`
serialised as `null` when `None`. -/
def model_dump (r : LogAnalysisResponse) : JVal :=
  JVal.obj [("log_id", match r.log_id with | none => JVal.null | some i => JVal.num i),
            ("errors", JVal.arr (r.errors.map dumpError)),
            ("possible_solutions", JVal.arr (r.possible_solutions.map dumpSolution))]

/-- `", ".join([e.error_message for e in errors]) or "No errors detected"`:
Python `or` replaces a falsy (empty) join result. -/
def mkSummary (errors : List Error) : List Char :=
  let j := List.intercalate (", ".toList) (errors.map (fun e => e.error_message.toList))
  if j = [] then "No errors detected".toList else j

/-- The validation phase of `run_log_analysis`: iterate over the two
values from the extractor (a `TypeError` from a non-iterable value
escapes to the orchestrator's handler) and validate record by record. -/
def validatePhase (jout : JsonOut) : Except Unit (List Error × List PossibleSolution) :=
  match iterJVal jout.errors with
  | Except.error _ => Except.error ()
  | Except.ok errItems =>
    match iterJVal jout.possible_solutions with
    | Except.error _ => Except.error ()
    | Except.ok solItems =>
      Except.ok (validateErrorBatch errItems, validateSolutionBatch solItems)

/-- Everything `run_log_analysis` did in one run: the returned response,
the backend-call/sleep trace, and the arguments of every `insert_log`
call made (the persistence writes attempted). -/
structure RunResult where
  response : LogAnalysisResponse
  events : List Event
  inserts : List (List Char × List Char)
deriving DecidableEq

/-- `run_log_analysis`.  The whole body after the emptiness check sits in
`try: ... except Exception: return LogAnalysisResponse()`, so every
internal exception — including one raised by `insert_log` — is mapped to
the empty response.  The result type is `Except` to record that the
caller could in principle observe an exception; the definition shows it
never does. -/
def run_log_analysis (parse : List Char → Option JVal)
    (fmt : List Char → Except Unit (List Char))
    (backend : Nat → List Char → LLMResult)
    (insert_log : List Char → List Char → Except Unit Int)
    (dumps : JVal → List Char)
    (log_text : List Char) : Except Unit RunResult :=
  if log_text = [] ∨ pyStrip log_text = [] then
    Except.ok ⟨emptyResponse, [], []⟩
  else
    let a := analyze_log_node parse fmt backend log_text
    match validatePhase a.1 with
    | Except.error _ => Except.ok ⟨emptyResponse, a.2, []⟩
    | Except.ok (errors, sols) =>
      let resp : LogAnalysisResponse := ⟨none, errors, sols⟩
      let summary := mkSummary errors
      let analysisText := dumps (model_dump resp)
      match insert_log summary analysisText with
      | Except.error _ => Except.ok ⟨emptyResponse, a.2, [(summary, analysisText)]⟩
      | Except.ok logId => Except.ok ⟨⟨some logId, errors, sols⟩, a.2, [(summary, analysisText)]⟩

/-! ## JSON serialisation (`json.dumps` with default separators)

Used to state P2 (extraction idempotence): the normalized output is
re-serialized to text and extracted again.  The recursion is bounded by
`sizeOf`, which always dominates the nesting depth, so the fuel never
runs out on an actual value. -/

/-- Escape a character inside a JSON string literal. -/
def escChar (c : Char) : List Char :=
  if c = '"' ∨ c = '\\' then ['\\', c] else [c]

/-- Serialise a JSON string with surrounding quotes. -/
def serializeStr (s : String) : List Char :=
  '"' :: (s.toList.map escChar).flatten ++ ['"']

/-- The `", "` item separator of `json.dumps`. -/
def commaSep : List Char := [',', ' ']

/-- The `": "` key separator of `json.dumps`. -/
def colonSep : List Char := [':', ' ']

mutual

/-- `json.dumps` on a JSON value (default separators). -/
def serializeJVal : JVal → List Char
  | JVal.null => "null".toList
  | JVal.bool true => "true".toList
  | JVal.bool false => "false".toList
  | JVal.num n => (toString n).toList
  | JVal.str s => serializeStr s
  | JVal.arr xs => '[' :: serElems xs ++ [']']
  | JVal.obj fields => lbrace :: serFields fields ++ [rbrace]

/-- Array elements joined by `", "`. -/
def serElems : List JVal → List Char
  | [] => []
  | [v] => serializeJVal v
  | v :: vs => serializeJVal v ++ commaSep ++ serElems vs

/-- Object entries `"key": value` joined by `", "`. -/
def serFields : List (String × JVal) → List Char
  | [] => []
  | [(k, v)] => serializeStr k ++ colonSep ++ serializeJVal v
  | (k, v) :: fs => serializeStr k ++ colonSep ++ serializeJVal v ++ commaSep ++ serFields fs

end

/-- The normalized output viewed as the dict it is in the source. -/
def toObj (r : JsonOut) : JVal :=
  JVal.obj [("errors", r.errors), ("possible_solutions", r.possible_solutions)]

/-- Re-serialisation of the extractor's normalized output. -/
def reserialize (r : JsonOut) : List Char := serializeJVal (toObj r)

/-! ## Prompt Builder: `log_analysis_prompt` (prompts.py) and Python `str.format`

`PromptTemplate` with the default `f-string` template format renders via
Python `str.format`-style substitution: `\x7b\x7b`/`\x7d\x7d` are literal
braces, `\x7bname\x7d` substitutes a variable, any other brace use is an
error (`KeyError` for an unknown field name, `ValueError` for a lone
closing brace or an unterminated field).  `pyFormatF` models this; the
format-spec/conversion forms (`:`/`!` after a *known* variable name) do
not occur in this template and are modelled as errors. -/

/-- Variable lookup of the formatter. -/
def lookupVar (vars : List (List Char × List Char)) (name : List Char) : Option (List Char) :=
  (vars.find? (fun p => p.1 = name)).map Prod.snd

/-- Scan a replacement field: the name up to the first `:`, `!` or
closing brace; `none` when the field is never terminated. -/
def spanField : List Char → Option (List Char × Char × List Char)
  | [] => none
  | c :: rest =>
    if c = ':' ∨ c = '!' ∨ c = rbrace then some ([], c, rest)
    else
      match spanField rest with
      | none => none
      | some (n, t, r) => some (c :: n, t, r)

/-- Fuel-bounded model of Python `str.format`, written with an output
accumulator (`acc`, reversed) so concrete runs evaluate iteratively.  The
fuel is one more than the text length, which the scan can never exhaust. -/
def pyFormatT (vars : List (List Char × List Char)) :
    Nat → List Char → List Char → Except Unit (List Char)
  | 0, _, _ => Except.error ()
  | _ + 1, acc, [] => Except.ok acc.reverse
  | fuel + 1, acc, c :: rest =>
    if c = lbrace then
      match rest with
      | [] => Except.error ()
      | c2 :: rest2 =>
        if c2 = lbrace then pyFormatT vars fuel (lbrace :: acc) rest2
        else
          match spanField rest with
          | none => Except.error ()
          | some (name, term, rest') =>
            match lookupVar vars name with
            | none => Except.error ()
            | some v =>
              if term = rbrace then pyFormatT vars fuel (v.reverse ++ acc) rest'
              else Except.error ()
    else if c = rbrace then
      match rest with
      | [] => Except.error ()
      | c2 :: rest2 =>
        if c2 = rbrace then pyFormatT vars fuel (rbrace :: acc) rest2
        else Except.error ()
    else pyFormatT vars fuel (c :: acc) rest

/-- Python `str.format` over a variable assignment. -/
def pyFormat (vars : List (List Char × List Char)) (text : List Char) : Except Unit (List Char) :=
  pyFormatT vars (text.length + 1) [] text

/-- The template string of `log_analysis_prompt` in `backend/prompts.py` is
the concatenation of the following verbatim pieces (split only so that
proofs can process it piecewise; braces and apostrophes are spelled as
`\x7b`, `\x7d`, `\x27` escapes).  `tmplPart3` starts at the template's
first literal brace. -/
def tmplPart1 : String := "\nYou are an expert **Root Cause Analysis (RCA) analyst** for technical systems.\nThe user will paste raw logs into the frontend text box.\nLogs may come from **application**, **system**, **CI/CD pipeline**, or **cloud infrastructure** sources.\n\nYour role is to analyze **each input independently**, identify the **root cause**, and provide **detailed technical solutions**.\n\n---\n\n### ⚙️ RCA PROCESS\n\nFollow these steps **in order** for every analysis:\n\n#### **1. Identify Log Source**\n\nIf unclear, ask:\n\n> “What is the source/system for this log?”\n> Otherwise, infer it automatically (e.g., `application`, `system`, `pipeline`, `cloud`).\n\n---\n\n#### **2. Parse & Normalize**\n\nExtract key details:\n\n* Timestamp\n* Log level (ERROR/WARN/INFO/DEBUG)\n* Component/service name\n* Request/trace ID\n* Exception names, error codes, HTTP statuses\n* Infrastructure indicators (CPU, disk, network, etc.)\n* Relevant config or pipeline stage names\n\n---\n\n#### **3. Detect Errors**\n\nIdentify all error events or exceptions.\nFor each, create an `errors` "

def tmplPart2 : String := "entry with:\n\n* The **timestamp** (ISO format if available)\n* A **clear summary** of the error\n* A **type/category** (e.g., `ApplicationError`, `InfraFailure`, `ConfigError`, `AuthFailure`, `TimeoutError`, `BuildFailure`, etc.)\n\n---\n\n#### **4. RCA and Solution Generation**\n\nFor every detected error:\n\n1. Analyze log evidence and infer the **most probable root cause**\n2. Generate **three solution blocks**:\n\n   * **immediate_fix** → Steps to restore normal operation\n   * **permanent_fix** → Steps to correct the root cause permanently\n   * **preventive_measures** → Steps to prevent future recurrence\n\nEach block must contain:\n\n* 2–5 **step-by-step actions** (commands/config edits included)\n* A **short explanation** for *why* each step helps\n* Commands clearly marked (e.g., `systemctl restart`, `kubectl get pods`, etc.)\n* **⚠️ Label destructive actions as “WARNING”**\n\n---\n\n### 🧾 REQUIRED OUTPUT FORMAT\n\nReturn your final result **strictly** in the following JSON structure — **no markdown or prose outside** the JSON.\n\n```json\n"

def tmplPart3 : String := "\x7b\n  \"errors\": [\n    \x7b\n      \"timestamp\": \"<timestamp or null>\",\n      \"error_message\": \"<summary of error>\",\n      \"error_type\": \"<ApplicationError|SystemError|ConfigError|TimeoutError|etc.>\"\n    \x7d\n  ],\n  \"possible_solutions\": [\n    \x7b\n      \"error_message\": \"<same as matching error_message>\",\n      \"immediate_fix\": \x7b\n        \"summary\": \"<short overview>\",\n        \"steps\": [\n          \"Step 1 with explanation and safe command\",\n          \"Step 2 with explanation and safe command\",\n          \"Step 3 with reasoning\"\n        ]\n      \x7d,\n      \"permanent_fix\": \x7b\n        \"summary\": \"<short overview>\",\n        \"steps\": [\n          \"Code/config change description with justification\",\n          \"Testing or validation step\",\n          \"Deployment or automation adjustment\"\n        ]\n      \x7d,\n      \"preventive_measures\": \x7b\n        \"summary\": \"<short overview>\",\n        \"steps\": [\n          \"Monitoring or alert policy with threshold details\",\n          \"Automated validation or CI check to prevent reoccurrence\",\n"

def tmplPart4 : String := "          \"Process or review guideline to reduce human error\"\n        ]\n      \x7d\n    \x7d\n  ]\n\x7d\n```\n\n---\n\n### 🧱 RULES\n\n* Use only **factual evidence from logs**.\n* Quote short log fragments (≤25 words) as evidence.\n* Never invent details beyond visible clues.\n* If insufficient information:\n\n  ```json\n  \x7b\n    \"errors\": [],\n    \"possible_solutions\": [],\n    \"note\": \"Insufficient log data. Please provide more context or specify log source.\"\n  \x7d\n  ```\n* Output **pure JSON** — no explanations, markdown, or commentary outside the object.\n\n---\n\n### 💡 EXAMPLE INPUT\n\n```\n[2025-10-15 11:02:13,345] ERROR webserver - RequestId=abc123 - GET /api/login returned 500 InternalServerError - java.lang.NullPointerException at com.app.AuthService.login(AuthService.java:92)\n```\n\n### 💡 EXAMPLE OUTPUT\n\n```json\n\x7b\n  \"errors\": [\n    \x7b\n      \"timestamp\": \"2025-10-15T11:02:13.345Z\",\n      \"error_message\": \"NullPointerException at AuthService.login line 92 causing 500 on /api/login\",\n      \"error_type\": \"ApplicationError\"\n    \x7d\n  ]"

def tmplPart5 : String := ",\n  \"possible_solutions\": [\n    \x7b\n      \"error_message\": \"NullPointerException at AuthService.login line 92 causing 500 on /api/login\",\n      \"immediate_fix\": \x7b\n        \"summary\": \"Restore webserver functionality and reduce user impact.\",\n        \"steps\": [\n          \"1. Restart the webserver process using \x27systemctl restart myapp-web\x27 (⚠️ WARNING: may drop active connections).\",\n          \"2. Enable maintenance mode via load balancer to route traffic to healthy nodes.\",\n          \"3. Review the last deployment logs using \x27kubectl logs <pod> --since=10m\x27 to confirm if recent code changes introduced the error.\",\n          \"4. Clear any corrupted session or cache data (e.g., Redis) to avoid repeated null references.\"\n        ]\n      \x7d,\n      \"permanent_fix\": \x7b\n        \"summary\": \"Fix the root cause in application code.\",\n        \"steps\": [\n          \"1. Add null checks and input validation for user object in AuthService.login before calling login().\",\n          \"2. Update exception handling to return"

def tmplPart6 : String := " a user-friendly error (e.g., 400 Bad Request instead of 500).\",\n          \"3. Implement unit tests to simulate missing user data and validate correct handling.\",\n          \"4. Redeploy the updated service after testing to staging and production.\"\n        ]\n      \x7d,\n      \"preventive_measures\": \x7b\n        \"summary\": \"Prevent similar null reference errors in future releases.\",\n        \"steps\": [\n          \"1. Add CI/CD step to run static code analysis (e.g., SonarQube) to detect possible NullPointerExceptions.\",\n          \"2. Configure alerting in monitoring tool to trigger if 5xx rate exceeds 5% for /api/login over 1 minute.\",\n          \"3. Integrate centralized error tracking (e.g., Sentry) to capture stack traces with user and request context.\",\n          \"4. Conduct code review checklist updates requiring null safety validation for all user-handling methods.\"\n        ]\n      \x7d\n    \x7d\n  ]\n\x7d\n---\n\nNow analyze this log:\n\n{log_text}\n\nRemember to return ONLY valid JSON in the specified format above.\n"

/-- The full `template=\"...\"` string of `log_analysis_prompt`,
with `input_variables=["log_text"]`. -/
def log_analysis_template : String := tmplPart1 ++ tmplPart2 ++ tmplPart3 ++ tmplPart4 ++ tmplPart5 ++ tmplPart6

/-- `log_analysis_prompt.format(log_text=...)`: the f-string render of the
template with the single variable `log_text`. -/
def promptFormat (logText : List Char) : Except Unit (List Char) :=
  pyFormat [("log_text".toList, logText)] log_analysis_template.toList

/-! ## Concrete collaborators used to exercise the pipeline -/

/-- A `json.loads` stand-in that always fails. -/
def cParseNone : List Char → Option JVal := fun _ => none

/-- A backend that raises on every attempt. -/
def cBackendRaise : Nat → List Char → LLMResult := fun _ _ => LLMResult.raise

/-- A backend whose response is a bare, non-empty dict without the
expected keys. -/
def cBackendDict : Nat → List Char → LLMResult :=
  fun _ _ => LLMResult.ok (PyResp.asDict [("note", JVal.null)])

/-- An `insert_log` gateway that always raises. -/
def cInsertFail : List Char → List Char → Except Unit Int := fun _ _ => Except.error ()

/-- An `insert_log` gateway that always assigns id 7. -/
def cInsertOk7 : List Char → List Char → Except Unit Int := fun _ _ => Except.ok 7

/-- A `json.dumps` stand-in returning the empty string. -/
def cDumpsNil : JVal → List Char := fun _ => []

/-- A `json.loads` stand-in that recognises exactly the re-serialisation
of the default normalized output. -/
def cParseRoundtrip : List Char → Option JVal :=
  fun s => if s = reserialize defaultJsonOut then some (toObj defaultJsonOut) else none

/-- The run observed in the C10 witness. -/
def cRunSaved : RunResult :=
  ⟨⟨some 7, [], []⟩, [Event.invoke 0], [("No errors detected".toList, [])]⟩

/-! ## The prompt template cannot be rendered: supporting lemmas -/

/-- Whether a stretch of text contains no brace at all. -/
def bracesFree : List Char → Bool
  | [] => true
  | c :: rest => if c = lbrace ∨ c = rbrace then false else bracesFree rest

/-- `bracesFree` splits over append. -/
theorem bracesFree_append (a b : List Char) :
    bracesFree (a ++ b) = (bracesFree a && bracesFree b) := by
  induction a with
  | nil => simp [bracesFree]
  | cons c a ih =>
    by_cases hc : c = lbrace ∨ c = rbrace
    · simp [bracesFree, hc]
    · simp [bracesFree, hc, ih]

/-- The formatter copies a brace-free stretch of text verbatim (consuming
exactly its length in fuel). -/
theorem pyFormatT_skip (vars : List (List Char × List Char)) (a : List Char)
    (b acc : List Char) (fuel : Nat) (h : bracesFree a = true) :
    pyFormatT vars (a.length + fuel) acc (a ++ b) =
      pyFormatT vars fuel (a.reverse ++ acc) b := by
  induction a generalizing acc with
  | nil => simp
  | cons c a ih =>
    by_cases hc : c = lbrace ∨ c = rbrace
    · simp [bracesFree, hc] at h
    · simp only [bracesFree, hc, if_false] at h
      push_neg at hc
      have harith : (c :: a).length + fuel = (a.length + fuel) + 1 := by
        simp [List.length_cons]
        omega
      rw [harith]
      simp only [List.cons_append]
      show pyFormatT vars ((a.length + fuel) + 1) acc (c :: (a ++ b)) = _
      simp only [pyFormatT, hc.1, hc.2, if_false, if_neg]
      rw [ih (c :: acc) h]
      simp [List.append_assoc]

set_option maxRecDepth 8000

/-- Length of the brace-free head of the template. -/
theorem tmplPre_length : (tmplPart1.toList ++ tmplPart2.toList).length = 2066 := by
  have h1 : tmplPart1.toList.length = 1033 := by rfl
  have h2 : tmplPart2.toList.length = 1033 := by rfl
  simp only [List.length_append, h1, h2]

/-- The head of the template (everything before its first literal brace)
contains no brace. -/
theorem tmplPre_bracesFree : bracesFree (tmplPart1.toList ++ tmplPart2.toList) = true := by
  rw [bracesFree_append]
  have h1 : bracesFree tmplPart1.toList = true := by rfl
  have h2 : bracesFree tmplPart2.toList = true := by rfl
  rw [h1, h2]
  rfl

/-- The template splits at its first literal brace. -/
theorem tmpl_split : log_analysis_template.toList =
    (tmplPart1.toList ++ tmplPart2.toList) ++
      (tmplPart3.toList ++ (tmplPart4.toList ++ (tmplPart5.toList ++ tmplPart6.toList))) := by
  show (tmplPart1 ++ tmplPart2 ++ tmplPart3 ++ tmplPart4 ++ tmplPart5 ++ tmplPart6).data = _
  simp only [String.data_append, String.toList, List.append_assoc]

/-- Total length of the template. -/
theorem tmpl_length : log_analysis_template.toList.length = 6115 := by
  rw [tmpl_split]
  have h1 : tmplPart1.toList.length = 1033 := by rfl
  have h2 : tmplPart2.toList.length = 1033 := by rfl
  have h3 : tmplPart3.toList.length = 1013 := by rfl
  have h4 : tmplPart4.toList.length = 1013 := by rfl
  have h5 : tmplPart5.toList.length = 1013 := by rfl
  have h6 : tmplPart6.toList.length = 1010 := by rfl
  simp only [List.length_append, h1, h2, h3, h4, h5, h6]

/-- C6: the claim says the Prompt Builder is a pure total function with no
failure modes that embeds the log text.  In the code,
`log_analysis_prompt.format(log_text=...)` raises for every input: the
template leaves its literal JSON-example braces unescaped, so the first
replacement field the f-string formatter meets has the "name"
`\n  "errors"`, which is not an input variable (a `KeyError`).  This
theorem evaluates the formatter at the failing input `"hello"`. -/
theorem prompt_format_always_raises : promptFormat ("hello".toList) = Except.error () := by
  show pyFormat [("log_text".toList, "hello".toList)] log_analysis_template.toList = _
  unfold pyFormat
  rw [tmpl_length, tmpl_split]
  rw [show (6115 + 1 : Nat) =
      (tmplPart1.toList ++ tmplPart2.toList).length + 4050 from by rw [tmplPre_length]]
  rw [pyFormatT_skip _ _ _ _ _ tmplPre_bracesFree]
  rfl

/-! ## Claim theorems -/

/-- C4: `extract_json_from_text` always yields an object with exactly the
keys `errors` and `possible_solutions`; whenever any extraction step
fails (no brace pair in order, parse failure, parsed value not an
object), both keys map to empty sequences; when parsing succeeds on an
object, present keys pass through uninterpreted and absent keys default
to empty sequences. -/
theorem extract_json_spec (parse : List Char → Option JVal) (text : List Char) :
    (jsonCandidate text = none → extract_json_from_text parse text = defaultJsonOut) ∧
    (∀ s, jsonCandidate text = some s →
      (parse s = none → extract_json_from_text parse text = defaultJsonOut) ∧
      (∀ v, parse s = some v → v.isObj = false →
        extract_json_from_text parse text = defaultJsonOut) ∧
      (∀ fields, parse s = some (JVal.obj fields) →
        extract_json_from_text parse text =
          ⟨dictGetD fields "errors" (JVal.arr []),
           dictGetD fields "possible_solutions" (JVal.arr [])⟩)) := by
  constructor
  · intro h
    simp [extract_json_from_text, h]
  · intro s hs
    refine ⟨?_, ?_, ?_⟩
    · intro hp
      simp [extract_json_from_text, hs, hp]
    · intro v hv hobj
      cases v <;> simp_all [extract_json_from_text, JVal.isObj]
    · intro fields hf
      simp [extract_json_from_text, hs, hf]

/-- Witness for C4 at a concrete input with no JSON at all. -/
theorem extract_json_spec_witness :
    jsonCandidate ("no json here".toList) = none ∧
    extract_json_from_text cParseNone ("no json here".toList) = defaultJsonOut :=
  ⟨by rfl, (extract_json_spec cParseNone ("no json here".toList)).1 (by rfl)⟩

/-- `pyStrip` is the identity when both ends are non-whitespace. -/
theorem pyStrip_of_ends (c₁ c₂ : Char) (mid : List Char)
    (h1 : c₁.isWhitespace = false) (h2 : c₂.isWhitespace = false) :
    pyStrip (c₁ :: (mid ++ [c₂])) = c₁ :: (mid ++ [c₂]) := by
  unfold pyStrip
  rw [List.dropWhile_cons]
  rw [h1]
  simp only [Bool.false_eq_true, if_false]
  have hrev : (c₁ :: (mid ++ [c₂])).reverse = c₂ :: (mid.reverse ++ [c₁]) := by
    simp
  rw [hrev, List.dropWhile_cons, h2]
  simp only [Bool.false_eq_true, if_false]
  rw [← hrev, List.reverse_reverse]

/-- The fence test fails on text that starts with a brace. -/
theorem fence_not_prefix_of_brace (t : List Char) :
    fenceChars.isPrefixOf (lbrace :: t) = false := by
  have hb : (btick == lbrace) = false := by decide
  simp [fenceChars, List.isPrefixOf, hb]

/-- A serialised object is taken whole by the candidate-slicing stage. -/
theorem jsonCandidate_wrapped (mid : List Char) :
    jsonCandidate (lbrace :: (mid ++ [rbrace])) = some (lbrace :: (mid ++ [rbrace])) := by
  have hlb : lbrace.isWhitespace = false := by decide
  have hrb : rbrace.isWhitespace = false := by decide
  have hfind : pyFind (lbrace :: (mid ++ [rbrace])) lbrace = some 0 := by
    simp [pyFind, pyFindAux]
  have hrfind : pyRFind (lbrace :: (mid ++ [rbrace])) rbrace = some (mid.length + 1) := by
    have hrev : (lbrace :: (mid ++ [rbrace])).reverse = rbrace :: (mid.reverse ++ [lbrace]) := by
      simp
    simp [pyRFind, hrev, pyFindAux]
  simp only [jsonCandidate, pyStrip_of_ends _ _ _ hlb hrb, fence_not_prefix_of_brace,
    Bool.false_eq_true, if_false, hfind, hrfind]
  rw [if_neg (by simp)]
  rw [if_neg (by omega)]
  have hlen : (lbrace :: (mid ++ [rbrace])).length ≤ mid.length + 1 + 1 - 0 := by simp
  simp [List.take_of_length_le hlen]

/-- Extraction applied to the serialisation of a normalized output gives
that output back (given `json.loads` round-trips on it). -/
theorem extract_of_serialized (parse : List Char → Option JVal) (E S : JVal)
    (h : parse (reserialize ⟨E, S⟩) = some (toObj ⟨E, S⟩)) :
    extract_json_from_text parse (reserialize ⟨E, S⟩) = ⟨E, S⟩ := by
  have hser : reserialize ⟨E, S⟩ =
      lbrace :: (serFields [("errors", E), ("possible_solutions", S)] ++ [rbrace]) := by
    show serializeJVal (JVal.obj [("errors", E), ("possible_solutions", S)]) = _
    simp [serializeJVal]
  have hobj : toObj ⟨E, S⟩ = JVal.obj [("errors", E), ("possible_solutions", S)] := rfl
  rw [hser, hobj] at h
  rw [hser]
  have hne : ("errors" = "possible_solutions") = False := by
    simp
  simp only [extract_json_from_text, jsonCandidate_wrapped, h, dictGetD, hne]
  simp [dictGetD]
/-- C9: extraction is idempotent — re-running `extract_json_from_text` on
the JSON re-serialisation of its own normalized output yields the same
normalized object (assuming the JSON library round-trips on that
serialisation, which is its contract). -/
theorem extract_idempotent (parse : List Char → Option JVal) (text : List Char)
    (hrt : parse (reserialize (extract_json_from_text parse text)) =
        some (toObj (extract_json_from_text parse text))) :
    extract_json_from_text parse (reserialize (extract_json_from_text parse text)) =
      extract_json_from_text parse text := by
  rcases hx : extract_json_from_text parse text with ⟨E, S⟩
  rw [hx] at hrt
  exact extract_of_serialized parse E S hrt

/-- Witness for C9: a run of the extractor on a brace-free input, whose
default output round-trips through the serialiser under a concrete
`json.loads`. -/
theorem extract_idempotent_witness :
    extract_json_from_text cParseRoundtrip
        (reserialize (extract_json_from_text cParseRoundtrip ("x".toList))) =
      extract_json_from_text cParseRoundtrip ("x".toList) := by
  refine extract_idempotent cParseRoundtrip ("x".toList) ?_
  have h0 : extract_json_from_text cParseRoundtrip ("x".toList) = defaultJsonOut := by rfl
  rw [h0]
  show (if reserialize defaultJsonOut = reserialize defaultJsonOut
      then some (toObj defaultJsonOut) else none) = some (toObj defaultJsonOut)
  rw [if_pos rfl]

/-- C8: the Validator/Repairer never increases the record count, output
order is the input order of survivors, and dropped records are not
replaced in the sequence: each batch is the in-order concatenation of the
per-record results (at most one output record per input record). -/
theorem validator_monotone (errItems solItems : List JVal) :
    (validateErrorBatch errItems).length ≤ errItems.length ∧
    (validateSolutionBatch solItems).length ≤ solItems.length ∧
    (∀ a b, validateErrorBatch (a ++ b) = validateErrorBatch a ++ validateErrorBatch b) ∧
    (∀ a b, validateSolutionBatch (a ++ b) = validateSolutionBatch a ++ validateSolutionBatch b) ∧
    (∀ v, validateErrorBatch [v] = (validateErrorItem v).toList) ∧
    (∀ v, validateSolutionBatch [v] = (validateSolutionItem v).toList) := by
  refine ⟨List.length_filterMap_le _ _, List.length_filterMap_le _ _, ?_, ?_, ?_, ?_⟩
  · intro a b
    simp [validateErrorBatch, List.filterMap_append]
  · intro a b
    simp [validateSolutionBatch, List.filterMap_append]
  · intro v
    cases h : validateErrorItem v <;> simp [validateErrorBatch, List.filterMap, h]
  · intro v
    cases h : validateSolutionItem v <;> simp [validateSolutionBatch, List.filterMap, h]

/-- C5: per-record validation.  A dict error record that fails
construction is repaired by filling exactly the missing fields with the
placeholders (null timestamp, "Unknown error", "UnknownError") and
retried once — kept iff the retry succeeds; a failing solution record is
dropped with no repair; in both cases the surrounding batch is processed
unchanged. -/
theorem validator_per_record (fs gs : List (String × JVal)) (pre post : List JVal) :
    (fillDefaults [] = [("timestamp", JVal.null), ("error_message", JVal.str "Unknown error"),
      ("error_type", JVal.str "UnknownError")]) ∧
    (mkError fs = none →
      validateErrorBatch (pre ++ JVal.obj fs :: post) =
        validateErrorBatch pre ++ (mkError (fillDefaults fs)).toList ++ validateErrorBatch post) ∧
    (mkSolution gs = none →
      validateSolutionBatch (pre ++ JVal.obj gs :: post) =
        validateSolutionBatch pre ++ validateSolutionBatch post) := by
  refine ⟨by rfl, ?_, ?_⟩
  · intro h
    have hitem : validateErrorItem (JVal.obj fs) = mkError (fillDefaults fs) := by
      simp [validateErrorItem, h]
    cases hfix : mkError (fillDefaults fs) <;>
      simp [validateErrorBatch, List.filterMap_append, List.filterMap_cons, hitem, hfix]
  · intro h
    have hitem : validateSolutionItem (JVal.obj gs) = none := by
      simp [validateSolutionItem, h]
    simp [validateSolutionBatch, List.filterMap_append, List.filterMap_cons, hitem]

/-- Witness for C5: the empty dict record fails, is repaired to the
placeholder error and kept; as a solution record it is dropped; a valid
neighbour is untouched. -/
theorem validator_per_record_witness :
    mkError [] = none ∧ mkSolution [] = none ∧
    validateErrorBatch
        [JVal.obj [("error_message", JVal.str "a"), ("error_type", JVal.str "b")], JVal.obj []] =
      [⟨none, "a", "b"⟩, ⟨none, "Unknown error", "UnknownError"⟩] ∧
    validateSolutionBatch [JVal.obj []] = [] := by
  refine ⟨by rfl, by rfl, ?_, ?_⟩
  · have h := (validator_per_record [] []
      [JVal.obj [("error_message", JVal.str "a"), ("error_type", JVal.str "b")]] []).2.1 (by rfl)
    simpa using h
  · have h := (validator_per_record [] [] [] []).2.2 (by rfl)
    simpa using h

/-- The retry loop makes at most `fuel` backend calls. -/
theorem countInvokes_goAttempts (fres : Except Unit (List Char))
    (backend : Nat → List Char → LLMResult) (attempt fuel : Nat) :
    countInvokes (goAttempts fres backend attempt fuel).2 ≤ fuel := by
  induction fuel generalizing attempt with
  | zero => simp [goAttempts, countInvokes]
  | succ fuel ih =>
    cases fres with
    | error e =>
      by_cases h : attempt < MAX_RETRIES - 1
      · simp only [goAttempts, h, if_true]
        have := ih (attempt + 1)
        simp [countInvokes, Event.isInvoke] at this ⊢
        omega
      · simp [goAttempts, h, countInvokes]
    | ok prompt =>
      cases hb : backend attempt prompt with
      | ok r => simp [goAttempts, hb, countInvokes, Event.isInvoke]
      | raise =>
        by_cases h : attempt < MAX_RETRIES - 1
        · simp only [goAttempts, hb, h, if_true]
          have := ih (attempt + 1)
          simp [countInvokes, Event.isInvoke] at this ⊢
          omega
        · simp [goAttempts, hb, h, countInvokes, Event.isInvoke]

/-- C3: the Model Invoker calls the backend at most 3 times; when the
prompt renders and the backend raises on every attempt, the backend is
called exactly 3 times (attempts 0, 1, 2) with a fixed 5-second sleep
between consecutive attempts, none after the last, and the default
payload is returned. -/
theorem analyze_retry_discipline (parse : List Char → Option JVal)
    (fmt : List Char → Except Unit (List Char)) (backend : Nat → List Char → LLMResult)
    (text : List Char) :
    countInvokes (analyze_log_node parse fmt backend text).2 ≤ 3 ∧
    (∀ prompt, fmt (truncateLog text) = Except.ok prompt →
      (∀ i, backend i prompt = LLMResult.raise) →
      analyze_log_node parse fmt backend text =
        (defaultJsonOut,
         [Event.invoke 0, Event.sleep 5, Event.invoke 1, Event.sleep 5, Event.invoke 2])) := by
  constructor
  · exact countInvokes_goAttempts (fmt (truncateLog text)) backend 0 MAX_RETRIES
  · intro prompt hfmt hraise
    simp only [analyze_log_node]
    rw [hfmt]
    simp [goAttempts, hraise 0, hraise 1, hraise 2, MAX_RETRIES, RETRY_DELAY, processResponse]

/-- Witness for C3: an always-raising backend with an identity formatter
yields exactly three calls and two sleeps. -/
theorem analyze_retry_discipline_witness :
    analyze_log_node cParseNone Except.ok cBackendRaise ("boom".toList) =
      (defaultJsonOut,
       [Event.invoke 0, Event.sleep 5, Event.invoke 1, Event.sleep 5, Event.invoke 2]) :=
  (analyze_retry_discipline cParseNone Except.ok cBackendRaise ("boom".toList)).2
    ("boom".toList) (by rfl) (fun i => rfl)

/-- C7: a whitespace-only (or empty) input short-circuits: the empty
response is returned with no backend call and no persistence write. -/
theorem empty_input_short_circuit (parse : List Char → Option JVal)
    (fmt : List Char → Except Unit (List Char)) (backend : Nat → List Char → LLMResult)
    (insert_log : List Char → List Char → Except Unit Int) (dumps : JVal → List Char)
    (text : List Char) (h : pyStrip text = []) :
    run_log_analysis parse fmt backend insert_log dumps text =
      Except.ok ⟨emptyResponse, [], []⟩ := by
  unfold run_log_analysis
  rw [if_pos (Or.inr h)]

/-- Witness for C7 on the two-space input. -/
theorem empty_input_short_circuit_witness :
    pyStrip ("  ".toList) = [] ∧
    run_log_analysis cParseNone Except.ok cBackendRaise cInsertOk7 cDumpsNil ("  ".toList) =
      Except.ok ⟨emptyResponse, [], []⟩ :=
  ⟨by rfl,
   empty_input_short_circuit cParseNone Except.ok cBackendRaise cInsertOk7 cDumpsNil
     ("  ".toList) (by rfl)⟩

/-- Inversion of the validation phase on success. -/
theorem validatePhase_ok (jout : JsonOut) (es : List Error) (ss : List PossibleSolution)
    (h : validatePhase jout = Except.ok (es, ss)) :
    ∃ ei si, iterJVal jout.errors = Except.ok ei ∧
      iterJVal jout.possible_solutions = Except.ok si ∧
      es = validateErrorBatch ei ∧ ss = validateSolutionBatch si := by
  unfold validatePhase at h
  cases h1 : iterJVal jout.errors with
  | error e => rw [h1] at h; simp at h
  | ok ei =>
    rw [h1] at h
    cases h2 : iterJVal jout.possible_solutions with
    | error e => rw [h2] at h; simp at h
    | ok si =>
      rw [h2] at h
      simp only [Except.ok.injEq, Prod.mk.injEq] at h
      exact ⟨ei, si, rfl, rfl, h.1.symm, h.2.symm⟩

/-- C1: `run_log_analysis` is total — for every input and every behaviour
of the formatter, backend, JSON library and gateway it returns (never
raises), and what it returns is either the empty response or a response
whose record lists are exactly the validated batches with an assigned
log id. -/
theorem run_log_analysis_total (parse : List Char → Option JVal)
    (fmt : List Char → Except Unit (List Char)) (backend : Nat → List Char → LLMResult)
    (insert_log : List Char → List Char → Except Unit Int) (dumps : JVal → List Char)
    (text : List Char) :
    ∃ r : RunResult, run_log_analysis parse fmt backend insert_log dumps text = Except.ok r ∧
      (r.response = emptyResponse ∨
        ∃ errItems solItems logId,
          r.response =
            ⟨some logId, validateErrorBatch errItems, validateSolutionBatch solItems⟩) := by
  simp only [run_log_analysis]
  by_cases h0 : text = [] ∨ pyStrip text = []
  · rw [if_pos h0]
    exact ⟨_, rfl, Or.inl rfl⟩
  · rw [if_neg h0]
    cases hvp : validatePhase (analyze_log_node parse fmt backend text).1 with
    | error e => exact ⟨_, rfl, Or.inl rfl⟩
    | ok p =>
      obtain ⟨es, ss⟩ := p
      obtain ⟨ei, si, h1, h2, h3, h4⟩ := validatePhase_ok _ _ _ hvp
      cases hins : insert_log (mkSummary es)
          (dumps (model_dump ⟨none, es, ss⟩)) with
      | error e =>
        dsimp only
        rw [hins]
        exact ⟨_, rfl, Or.inl rfl⟩
      | ok logId =>
        dsimp only
        rw [hins]
        exact ⟨_, rfl, Or.inr ⟨ei, si, logId, by rw [h3, h4]⟩⟩


/-- C2 (amended): an exception from the `insert_log` gateway does NOT
propagate — it is caught by the orchestrator catch-all and converted to
the empty response. -/
theorem insert_error_swallowed (parse : List Char → Option JVal)
    (fmt : List Char → Except Unit (List Char)) (backend : Nat → List Char → LLMResult)
    (dumps : JVal → List Char) (text : List Char)
    (insert_log : List Char → List Char → Except Unit Int)
    (hg : ∀ s a, insert_log s a = Except.error ()) :
    ∃ ev ins, run_log_analysis parse fmt backend insert_log dumps text =
      Except.ok ⟨emptyResponse, ev, ins⟩ := by
  simp only [run_log_analysis]
  by_cases h0 : text = [] ∨ pyStrip text = []
  · rw [if_pos h0]
    exact ⟨[], [], rfl⟩
  · rw [if_neg h0]
    cases hvp : validatePhase (analyze_log_node parse fmt backend text).1 with
    | error e => exact ⟨_, [], rfl⟩
    | ok p =>
      obtain ⟨es, ss⟩ := p
      dsimp only
      rw [hg (mkSummary es) (dumps (model_dump ⟨none, es, ss⟩))]
      exact ⟨_, _, rfl⟩

/-- Witness for C2's amended theorem: a concrete always-raising gateway. -/
theorem insert_error_swallowed_witness :
    ∃ ev ins, run_log_analysis cParseNone Except.ok cBackendDict cInsertFail cDumpsNil
      ("log line".toList) = Except.ok ⟨emptyResponse, ev, ins⟩ :=
  insert_error_swallowed cParseNone Except.ok cBackendDict cDumpsNil ("log line".toList)
    cInsertFail (fun _ _ => rfl)

/-- Counterexample to C2 as stated: on a run where the gateway raises on
the exact write the orchestrator attempts, the caller still receives
`Except.ok` with the empty response (and the attempted write is visible
in the trace) — the gateway exception does not surface. -/
theorem insert_error_not_propagated :
    cInsertFail ("No errors detected".toList) (cDumpsNil (model_dump ⟨none, [], []⟩)) =
      Except.error () ∧
    run_log_analysis cParseNone Except.ok cBackendDict cInsertFail cDumpsNil
        ("log line".toList) =
      Except.ok ⟨emptyResponse, [Event.invoke 0], [("No errors detected".toList, [])]⟩ :=
  ⟨rfl, by rfl⟩

/-- The dumped analysis object always carries `log_id: null`. -/
theorem jLookup_model_dump_none (es : List Error) (ss : List PossibleSolution) :
    jLookup (model_dump ⟨none, es, ss⟩) "log_id" = some JVal.null := by
  simp [jLookup, model_dump, List.find?]

/-- C10: in every successful run (one that returns an assigned log id),
the single `insert_log` write received the serialisation of the response
with `log_id` still `null` — the id is attached to the in-memory response
only after the write, so the persisted record never carries it. -/
theorem persisted_log_id_null (parse : List Char → Option JVal)
    (fmt : List Char → Except Unit (List Char)) (backend : Nat → List Char → LLMResult)
    (insert_log : List Char → List Char → Except Unit Int) (dumps : JVal → List Char)
    (text : List Char) (r : RunResult) (logId : Int)
    (hr : run_log_analysis parse fmt backend insert_log dumps text = Except.ok r)
    (hid : r.response.log_id = some logId) :
    ∃ summary,
      r.inserts = [(summary,
        dumps (model_dump ⟨none, r.response.errors, r.response.possible_solutions⟩))] ∧
      jLookup (model_dump ⟨none, r.response.errors, r.response.possible_solutions⟩) "log_id" =
        some JVal.null ∧
      insert_log summary
        (dumps (model_dump ⟨none, r.response.errors, r.response.possible_solutions⟩)) =
        Except.ok logId := by
  simp only [run_log_analysis] at hr
  by_cases h0 : text = [] ∨ pyStrip text = []
  · rw [if_pos h0] at hr
    simp only [Except.ok.injEq] at hr
    subst hr
    simp [emptyResponse] at hid
  · rw [if_neg h0] at hr
    cases hvp : validatePhase (analyze_log_node parse fmt backend text).1 with
    | error e =>
      rw [hvp] at hr
      simp only [Except.ok.injEq] at hr
      subst hr
      simp [emptyResponse] at hid
    | ok p =>
      obtain ⟨es, ss⟩ := p
      rw [hvp] at hr
      dsimp only at hr
      cases hins : insert_log (mkSummary es) (dumps (model_dump ⟨none, es, ss⟩)) with
      | error e =>
        rw [hins] at hr
        simp only [Except.ok.injEq] at hr
        subst hr
        simp [emptyResponse] at hid
      | ok lid =>
        rw [hins] at hr
        simp only [Except.ok.injEq] at hr
        subst hr
        simp only [Option.some.injEq] at hid
        subst hid
        exact ⟨mkSummary es, rfl, jLookup_model_dump_none es ss, hins⟩

/-- Witness for C10: a concrete successful run assigning id 7. -/
theorem persisted_log_id_null_witness :
    run_log_analysis cParseNone Except.ok cBackendDict cInsertOk7 cDumpsNil
        ("log line".toList) = Except.ok cRunSaved ∧
    cRunSaved.response.log_id = some 7 ∧
    (∃ summary,
      cRunSaved.inserts = [(summary, cDumpsNil (model_dump
        ⟨none, cRunSaved.response.errors, cRunSaved.response.possible_solutions⟩))] ∧
      jLookup (model_dump
        ⟨none, cRunSaved.response.errors, cRunSaved.response.possible_solutions⟩) "log_id" =
        some JVal.null ∧
      cInsertOk7 summary (cDumpsNil (model_dump
        ⟨none, cRunSaved.response.errors, cRunSaved.response.possible_solutions⟩)) =
        Except.ok 7) :=
  ⟨by rfl, by rfl,
   persisted_log_id_null cParseNone Except.ok cBackendDict cInsertOk7 cDumpsNil
     ("log line".toList) cRunSaved 7 (by rfl) (by rfl)⟩

end LogAnalyzer
